import Mathlib

/-!
Shallow embedding of the secure-repository download layer
(`src/pip/_internal/network/secure_repository.py` and
`src/pip/_internal/network/secure_fetcher.py`).

Python strings are Lean `String`s; Python exceptions are values of an
explicit error type and fallible code returns `Except`; the mutable
fields of `SecureRepository` (and the `progress_bar` field of the
shared `PipFetcher`) are threaded explicitly as a `RepoState`; the
external Trust Engine (`tuf.ngclient.Updater`, whose implementation is
not part of this repository) is an oracle record of result-valued
functions; each run additionally records the sequence of Trust Engine
calls it performed, so that ordering properties can be stated.
-/

/-- Modelled from the spec: the exception taxonomy. `UnsignedMetadataError`
is a repository-error kind (a subclass of `RepositoryError` in the vendored
trust library, whose `api.exceptions` module is not part of the sources),
while `DownloadError` is the separate transport/download-error kind;
`ValueError`, `IndexError`, `RecursionError` and `NameError` (raised when
evaluating an `except` clause that names an undefined identifier) are
Python builtins; `ConfigurationError` and `NetworkConnectionError` come
from `pip._internal.exceptions`. -/
inductive PipErr where
  | unsignedMetadataError (msg : String)
  | repositoryError (msg : String)
  | downloadError (msg : String)
  | valueError (msg : String)
  | configurationError (msg : String)
  | recursionError (msg : String)
  | indexError (msg : String)
  | networkConnectionError (msg : String)
  | nameError (msg : String)
  deriving DecidableEq, Repr

/-- Which errors an `except UnsignedMetadataError` clause catches. -/
def isUnsignedMetadataError : PipErr → Bool
  | .unsignedMetadataError _ => true
  | _ => false

/-- Which errors an `except RepositoryError` clause catches
(`UnsignedMetadataError` is a subclass of `RepositoryError`). -/
def isRepositoryError : PipErr → Bool
  | .repositoryError _ => true
  | .unsignedMetadataError _ => true
  | _ => false

/-- Which errors an `except DownloadError` clause catches. -/
def isDownloadError : PipErr → Bool
  | .downloadError _ => true
  | _ => false

/-- Message carried by an error (Python `str(e)`). -/
def errMsg : PipErr → String
  | .unsignedMetadataError m => m
  | .repositoryError m => m
  | .downloadError m => m
  | .valueError m => m
  | .configurationError m => m
  | .recursionError m => m
  | .indexError m => m
  | .networkConnectionError m => m
  | .nameError m => m

/-- Python `s[-1]`: the last character, or an IndexError (`none`) on the
empty string. -/
def pyLastChar (s : String) : Option Char :=
  s.data.getLast?

/-- `SecureRepositoryManager._canonicalize_url`: appends a slash when the
last character is not a slash.  `none` models the uncaught Python
IndexError that `index_url[-1]` raises on the empty string. -/
def canonicalize_url (index_url : String) : Option String :=
  match pyLastChar index_url with
  | none => none
  | some c => some (if c ≠ '/' then index_url ++ "/" else index_url)

/-- Python `s.rstrip(sep)` for a single strip character. -/
def pyRstrip (strip : Char) (s : String) : String :=
  ⟨(s.data.reverse.dropWhile (fun c => c == strip)).reverse⟩

/-- Python `s.rpartition(sep)` for a one-character separator: splits at the
last occurrence, returning `(head, sep, tail)`; when the separator does not
occur, returns `("", "", s)`. -/
def pyRpartition (sep : Char) (s : String) : String × String × String :=
  let rev := s.data.reverse
  let after : List Char := (rev.takeWhile (fun c => c != sep)).reverse
  match rev.dropWhile (fun c => c != sep) with
  | [] => ("", "", s)
  | _ :: rest => (⟨rest.reverse⟩, ⟨[sep]⟩, ⟨after⟩)

/-- `SecureRepositoryManager._KNOWN_SECURE_INDEXES`. -/
def KNOWN_SECURE_INDEXES : List String :=
  ["http://localhost:9001/simple/"]

/-- `SecureRepositoryManager.get_secure_repository`, with the repository
map abstracted to its list of keys (canonical index URLs).  Returns the
found key (or `none`) together with the project name, or the raised
error: `ValueError` when no project segment exists, the `IndexError`
from `canonicalize_url` on an empty remainder, `ConfigurationError` when
a known-secure index has no repository. -/
def get_secure_repository (repositories : List String) (project_url : String) :
    Except PipErr (Option String × String) :=
  let parts := pyRpartition '/' (pyRstrip '/' project_url)
  let index_url := parts.1
  let project := parts.2.2
  if project = "" then
    .error (.valueError ("Failed to parse " ++ project_url ++ " as project index URL"))
  else
    match canonicalize_url index_url with
    | none => .error (.indexError "string index out of range")
    | some cu =>
      let repository := if repositories.contains cu then some cu else none
      if repository = none ∧ KNOWN_SECURE_INDEXES.contains cu then
        .error (.configurationError ("Expected to find secure downloader for " ++ cu))
      else
        .ok (repository, project)

/-- Python `s.split(sep)` for a one-character separator (auxiliary loop,
carrying the reversed current chunk). -/
def splitCharAux (sep : Char) : List Char → List Char → List String
  | [], acc => [⟨acc.reverse⟩]
  | c :: cs, acc =>
    if c = sep then ⟨acc.reverse⟩ :: splitCharAux sep cs []
    else splitCharAux sep cs (c :: acc)

/-- Python `s.split(sep)` for a one-character separator: `"".split` is
`[""]`, adjacent separators yield empty chunks. -/
def pySplit (sep : Char) (s : String) : List String :=
  splitCharAux sep s.data []

/-- Python `"".join(l)`. -/
def concatAll : List String → String
  | [] => ""
  | x :: xs => x ++ concatAll xs

/-- Python `"/".join(l)`. -/
def joinSlash : List String → String
  | [] => ""
  | [x] => x
  | x :: y :: xs => x ++ "/" ++ joinSlash (y :: xs)

/-- Python `s[:n]` for `n ≥ 0`. -/
def pyTake (n : Nat) (s : String) : String :=
  ⟨s.data.take n⟩

/-- Python `os.path.join(a, b)` for POSIX paths. -/
def pyPathJoin (a b : String) : String :=
  if pyTake 1 b = "/" then b
  else if a = "" ∨ pyLastChar a = some '/' then a ++ b
  else a ++ "/" ++ b

/-- Python `urllib.parse.urlunsplit([scheme, netloc, path, "", ""])`. -/
def urlunsplit3 (scheme netloc path : String) : String :=
  let url :=
    if netloc ≠ "" ∨ (path ≠ "" ∧ pyTake 2 path = "//") then
      "//" ++ netloc ++ (if path ≠ "" ∧ pyTake 1 path ≠ "/" then "/" ++ path else path)
    else path
  if scheme ≠ "" then scheme ++ ":" ++ url else url

/-- `pip._internal.models.link.Link`, modelled from its use in the
sources: the split components of the distribution URL (`link.scheme`,
`link.netloc`, `link.path`); the class itself lives outside these
sources. -/
structure Link where
  scheme : String
  netloc : String
  path : String
  deriving DecidableEq, Repr

/-- Python list slice `l[-4:]`. -/
def sliceLast4 (l : List String) : List String :=
  l.drop (l.length - 4)

/-- Python list slice `l[-4:-1]`. -/
def sliceLast4DropLast (l : List String) : List String :=
  (l.drop (l.length - 4)).dropLast

/-- Python list slice `l[:-4]`. -/
def sliceDropLast4 (l : List String) : List String :=
  l.take (l.length - 4)

/-- `SecureRepository._split_distribution_url`: splits a distribution link
into `(base_url, target_name)`.  The sanity check requires the three path
segments before the filename to join to a string of length 64; on failure
it raises `ValueError`. -/
def split_distribution_url (link : Link) : Except PipErr (String × String) :=
  let split_path := pySplit '/' link.path
  let blake2b := concatAll (sliceLast4DropLast split_path)
  if blake2b.length ≠ 64 then
    .error (.valueError "Expected structure not found in link")
  else
    let target_name := joinSlash (sliceLast4 split_path)
    let base_path := joinSlash (sliceDropLast4 split_path)
    .ok (urlunsplit3 link.scheme link.netloc base_path, target_name)

/-- Hexadecimal digit, as the claim about content hashes uses the word
(spec-side notion, for comparison with what the code actually checks). -/
def isHexDigitChar (c : Char) : Bool :=
  (('0' ≤ c ∧ c ≤ '9') ∨ ('a' ≤ c ∧ c ≤ 'f') ∨ ('A' ≤ c ∧ c ≤ 'F') : Bool)

/-- Opaque handle returned by `Updater.get_targetinfo` (`TargetInfo` of the
vendored trust library); only its target name is observed by the sources. -/
structure TargetInfo where
  name : String
  deriving DecidableEq, Repr

/-- Modelled from the spec: the Trust Engine capability
(`tuf.ngclient.Updater`, whose implementation is not part of the sources).
`refreshResult` is the outcome of `refresh()`; `getTargetinfoResult` maps a
target name to a descriptor, `none` when unresolved, or an error;
`downloadTargetResult` maps `(descriptor, filepath, target_base_url)` to the
downloaded path or an error; `fileBytes` models reading a downloaded file. -/
structure UpdaterBehavior where
  refreshResult : Except PipErr Unit
  getTargetinfoResult : String → Except PipErr (Option TargetInfo)
  downloadTargetResult : TargetInfo → String → String → Except PipErr String
  fileBytes : String → List Nat

/-- Observable calls from the repository layer to the Trust Engine (the
first three touch the network) and warning-log emissions.  A
`downloadTargetCall` records the progress-bar mode the shared fetcher had
when the call was made. -/
inductive Event where
  | refreshCall
  | getTargetinfoCall (targetName : String)
  | downloadTargetCall (targetName : String) (progressBar : String)
  | warnLog
  deriving DecidableEq, Repr

/-- Whether an event is a network operation. -/
def isNetworkEvent : Event → Bool
  | .refreshCall => true
  | .getTargetinfoCall _ => true
  | .downloadTargetCall _ _ => true
  | .warnLog => false

/-- Mutable state of one `SecureRepository` (plus the `progress_bar` field
of its `PipFetcher` and, as instrumentation, a count of underlying
`Updater.refresh()` invocations). -/
structure RepoState where
  refreshed : Bool
  progressBar : String
  distributionMirrors : List String
  prefixTargetsWithHash : Bool
  refreshCount : Nat
  deriving DecidableEq, Repr

/-- State after `SecureRepository.__init__`: not yet refreshed, fetcher
progress bar at its `PipFetcher` default `"on"`, the distribution-mirror
map seeded with the repository base URL. -/
def initRepoState (baseUrl : String) : RepoState :=
  { refreshed := false
    progressBar := "on"
    distributionMirrors := [baseUrl]
    prefixTargetsWithHash := false
    refreshCount := 0 }

/-- Result of running one repository operation: the returned value or
raised error, the final state, and the emitted events in order. -/
structure Run (α : Type) where
  result : Except PipErr α
  state : RepoState
  events : List Event

/-- `SecureRepository._ensure_fresh_metadata`: refresh the Trust Engine
metadata once; the flag is set only after a successful refresh. -/
def ensure_fresh_metadata (b : UpdaterBehavior) (s : RepoState) : Run Unit :=
  if s.refreshed then ⟨.ok (), s, []⟩
  else
    match b.refreshResult with
    | .ok _ =>
      ⟨.ok (), { s with refreshed := true, refreshCount := s.refreshCount + 1 },
        [.refreshCall]⟩
    | .error e =>
      ⟨.error e, { s with refreshCount := s.refreshCount + 1 }, [.refreshCall]⟩

/-- `SecureRepository._ensure_distribution_mirror_config`: add the mirror
URL to the distribution-mirror map when absent. -/
def ensure_distribution_mirror_config (mirror_url : String) (s : RepoState) :
    RepoState :=
  if s.distributionMirrors.contains mirror_url then s
  else { s with distributionMirrors := s.distributionMirrors ++ [mirror_url] }

/-- The `except` clauses of `SecureRepository.download_index`:
`RepositoryError` is re-raised as `RecursionError(e)`; `DownloadError` is
logged as a warning and converted to `None`; anything else propagates. -/
def index_except_handler (e : PipErr) (s : RepoState) (ev : List Event) :
    Run (Option (List Nat)) :=
  if isRepositoryError e then ⟨.error (.recursionError (errMsg e)), s, ev⟩
  else if isDownloadError e then ⟨.ok none, s, ev ++ [.warnLog]⟩
  else ⟨.error e, s, ev⟩

/-- `SecureRepository.download_index`. -/
def download_index (b : UpdaterBehavior) (baseUrl tmpDir : String)
    (project_name : String) (s0 : RepoState) : Run (Option (List Nat)) :=
  let s1 := { s0 with progressBar := "off" }
  let r1 := ensure_fresh_metadata b s1
  match r1.result with
  | .error e => index_except_handler e r1.state r1.events
  | .ok _ =>
    let target_name := project_name ++ "/" ++ project_name ++ ".html"
    let ev2 := r1.events ++ [.getTargetinfoCall target_name]
    match b.getTargetinfoResult target_name with
    | .error e => index_except_handler e r1.state ev2
    | .ok none => ⟨.ok none, r1.state, ev2⟩
    | .ok (some target) =>
      let s3 := { r1.state with prefixTargetsWithHash := true }
      let filepath := pyPathJoin tmpDir project_name
      let ev3 := ev2 ++ [.downloadTargetCall target.name s3.progressBar]
      match b.downloadTargetResult target filepath (baseUrl ++ "/simple/") with
      | .error e => index_except_handler e s3 ev3
      | .ok path => ⟨.ok (some (b.fileBytes path)), s3, ev3⟩

/-- The `except` clauses of `SecureRepository.download_distribution`:
`UnsignedMetadataError` and `RepositoryError` are re-raised wrapped in the
same class; anything else (notably `DownloadError` and `ValueError`)
propagates unchanged. -/
def dist_except_handler (e : PipErr) (s : RepoState) (ev : List Event) :
    Run (Option String) :=
  if isUnsignedMetadataError e then ⟨.error (.unsignedMetadataError (errMsg e)), s, ev⟩
  else if isRepositoryError e then ⟨.error (.repositoryError (errMsg e)), s, ev⟩
  else ⟨.error e, s, ev⟩

/-- `SecureRepository.download_distribution`.  Note that the sources set
the fetcher progress bar to `"off"` for the metadata phase and never set
the caller-requested `progress_bar` before the artifact download (the code
that did is commented out), and that an unresolved target makes the
function return `None` despite its declared `-> str` type. -/
def download_distribution (b : UpdaterBehavior) (baseUrl : String) (link : Link)
    (location : String) (progress_bar : String) (s0 : RepoState) :
    Run (Option String) :=
  let s1 := { s0 with progressBar := "off" }
  let r1 := ensure_fresh_metadata b s1
  match r1.result with
  | .error e => dist_except_handler e r1.state r1.events
  | .ok _ =>
    match split_distribution_url link with
    | .error e => dist_except_handler e r1.state r1.events
    | .ok (base_url, target_name) =>
      let s2 := ensure_distribution_mirror_config base_url r1.state
      let s3 := { s2 with prefixTargetsWithHash := false }
      let ev2 := r1.events ++ [.getTargetinfoCall target_name]
      match b.getTargetinfoResult target_name with
      | .error e => dist_except_handler e s3 ev2
      | .ok none => ⟨.ok none, s3, ev2⟩
      | .ok (some target) =>
        let filepath := pyPathJoin location ((pySplit '/' target_name).getLastD "")
        let ev3 := ev2 ++ [.downloadTargetCall target.name s3.progressBar]
        match b.downloadTargetResult target filepath (baseUrl ++ "/packages/") with
        | .error e => dist_except_handler e s3 ev3
        | .ok path => ⟨.ok (some path), s3, ev3⟩

/-- One public operation on a repository, for stating lifetime
invariants over interleaved call sequences. -/
inductive RepoOp where
  | ensureOp
  | indexOp (project : String)
  | distOp (link : Link) (location : String) (progressBar : String)

/-- State left behind by one operation (results discarded; Python state
mutations survive raised exceptions). -/
def applyOp (b : UpdaterBehavior) (baseUrl tmpDir : String) (op : RepoOp)
    (s : RepoState) : RepoState :=
  match op with
  | .ensureOp => (ensure_fresh_metadata b s).state
  | .indexOp p => (download_index b baseUrl tmpDir p s).state
  | .distOp l loc pb => (download_distribution b baseUrl l loc pb s).state

/-- Run a sequence of operations on one repository. -/
def runOps (b : UpdaterBehavior) (baseUrl tmpDir : String) (ops : List RepoOp)
    (s : RepoState) : RepoState :=
  ops.foldl (fun s op => applyOp b baseUrl tmpDir op s) s

/-- Modelled from the spec: the outcome of constructing one
`SecureRepository` (the `Updater` constructor loads local trust metadata;
its implementation is not part of the sources).  The three shapes are the
ones the `except` clauses of `_initialize_repositories` (try to)
distinguish: success, missing local metadata, or corrupt local metadata
(`RepositoryError`). -/
inductive ConstructResult where
  | success
  | missingLocal
  | repoError
  deriving DecidableEq, Repr

/-- `SecureRepositoryManager._initialize_repositories`, with the
repository map abstracted to its list of keys and per-URL construction
outcomes given by an oracle on the canonical URL.  The first `except`
clause names `MissingLocalRepositoryError`, an identifier that is neither
imported nor defined anywhere in the module; under Python semantics,
evaluating that clause while any construction exception propagates raises
`NameError`, so every construction failure aborts the loop with
`NameError` — the silent-skip branch and both `ConfigurationError`
branches of the handler code are unreachable. -/
def initialize_repositories (outcome : String → ConstructResult) :
    List String → Except PipErr (List String)
  | [] => .ok []
  | u :: rest =>
    match canonicalize_url u with
    | none => .error (.indexError "string index out of range")
    | some cu =>
      match outcome cu with
      | .success =>
        match initialize_repositories outcome rest with
        | .ok m => .ok (cu :: m)
        | .error e => .error e
      | .missingLocal =>
        .error (.nameError "name MissingLocalRepositoryError is not defined")
      | .repoError =>
        .error (.nameError "name MissingLocalRepositoryError is not defined")

/-- Example base URL of a distribution mirror. -/
def exampleBaseUrl : String := "https://files.pythonhosted.org"

/-- Hash-addressed distribution path whose three pre-filename segments join
to 64 hexadecimal characters. -/
def goodHashPath : String :=
  "/packages/8f/1f/012345678901234567890123456789012345678901234567890123456789/Django-1.1.3.tar.gz"

/-- Well-formed distribution link. -/
def goodLink : Link :=
  { scheme := "https", netloc := "files.pythonhosted.org", path := goodHashPath }

/-- Target name derived from `goodLink`. -/
def goodTargetName : String :=
  "8f/1f/012345678901234567890123456789012345678901234567890123456789/Django-1.1.3.tar.gz"

/-- Distribution link whose three pre-filename segments join to 64
characters none of which is a hexadecimal digit. -/
def nonHexLink : Link :=
  { scheme := "https", netloc := "files.pythonhosted.org",
    path := "/packages/zzzzzzzzzzzzzzzzzzzzzzzzzzzzzzzzzzzzzzzzzzzzzzzzzzzzzzzzzzzz/wz/yz/file.tar.gz" }

/-- Structurally invalid distribution link (no hash path at all). -/
def badLink : Link :=
  { scheme := "https", netloc := "h", path := "short" }

/-- Trust Engine behavior: everything succeeds, every target resolves,
downloads land at the requested filepath. -/
def behOk : UpdaterBehavior :=
  { refreshResult := .ok ()
    getTargetinfoResult := fun n => .ok (some ⟨n⟩)
    downloadTargetResult := fun _ fp _ => .ok fp
    fileBytes := fun _ => [] }

/-- Trust Engine behavior: refresh succeeds but no target resolves
(`get_targetinfo` returns `None`). -/
def behUnresolved : UpdaterBehavior :=
  { behOk with getTargetinfoResult := fun _ => .ok none }

/-- Trust Engine behavior: target resolution fails with a transport
(`DownloadError`) failure. -/
def behConnFail : UpdaterBehavior :=
  { behOk with getTargetinfoResult := fun _ => .error (.downloadError "connection refused") }

/-- Trust Engine behavior: the verified download itself fails with a
transport (`DownloadError`) failure. -/
def behDownloadFail : UpdaterBehavior :=
  { behOk with downloadTargetResult := fun _ _ _ => .error (.downloadError "mirrors exhausted") }

/-- Helper: a string equals `""` iff its character list is empty. -/
theorem string_eq_empty_iff (s : String) : s = "" ↔ s.data = [] := by
  cases s with
  | mk d =>
    constructor
    · intro h
      exact congrArg String.data h
    · intro h
      subst h
      rfl

/-- Helper: rebuilding a string from its character list is the identity. -/
theorem string_mk_data (s : String) : String.mk s.data = s := by
  cases s
  rfl

/-- Helper: on a non-empty string, `canonicalize_url` succeeds, its result
ends in a slash, and the result is a fixed point. -/
theorem canonicalize_url_spec (u : String) (hu : u ≠ "") :
    ∃ r, canonicalize_url u = some r ∧ pyLastChar r = some '/' ∧
      canonicalize_url r = some r := by
  have hd : u.data ≠ [] := fun h => hu ((string_eq_empty_iff u).mpr h)
  obtain ⟨c, hc⟩ : ∃ c, u.data.getLast? = some c := by
    cases h : u.data.getLast? with
    | none => exact absurd (List.getLast?_eq_none_iff.mp h) hd
    | some c => exact ⟨c, rfl⟩
  by_cases hcs : c = '/'
  · exact ⟨u, by simp [canonicalize_url, pyLastChar, hc, hcs],
      by simp [pyLastChar, hc, hcs],
      by simp [canonicalize_url, pyLastChar, hc, hcs]⟩
  · have hlast : pyLastChar (u ++ "/") = some '/' := by
      show (u.data ++ ['/']).getLast? = some '/'
      exact List.getLast?_concat _
    exact ⟨u ++ "/", by simp [canonicalize_url, pyLastChar, hc, hcs],
      hlast, by simp [canonicalize_url, hlast]⟩

/-- Helper: a project URL whose stripped form is non-empty and contains no
slash makes `get_secure_repository` hit the out-of-bounds string access in
`canonicalize_url` (Python IndexError), not the documented `ValueError`. -/
theorem get_secure_repository_crash (repos : List String) (url : String)
    (h1 : pyRstrip '/' url ≠ "")
    (h2 : ∀ c ∈ (pyRstrip '/' url).data, c ≠ '/') :
    get_secure_repository repos url =
      .error (.indexError "string index out of range") := by
  have hrev : ∀ c ∈ (pyRstrip '/' url).data.reverse, (c != '/') = true := by
    intro c hc
    simpa using h2 c (List.mem_reverse.mp hc)
  have hdrop : (pyRstrip '/' url).data.reverse.dropWhile (fun c => c != '/') = [] :=
    List.dropWhile_eq_nil_iff.mpr hrev
  have htake : (pyRstrip '/' url).data.reverse.takeWhile (fun c => c != '/')
      = (pyRstrip '/' url).data.reverse :=
    List.takeWhile_eq_self_iff.mpr hrev
  unfold get_secure_repository pyRpartition
  simp only [hdrop, htake, List.reverse_reverse, string_mk_data]
  rw [if_neg h1]
  rfl

/-- C7: the claim quantifies over every URL, but `canonicalize_url` yields
no string at all on the empty URL (the Python code raises IndexError), so
"always yields a string ending in a slash" fails at `""`. -/
theorem C7_counterexample : canonicalize_url "" = none := rfl

/-- C7 (amended): for every non-empty URL `u`, `canonicalize_url u` yields
a string that ends in a slash and is a fixed point of `canonicalize_url`
(hence canonicalizing twice equals canonicalizing once). -/
theorem C7_canonicalize_idempotent_trailing_slash (u : String) (hu : u ≠ "") :
    ∃ r, canonicalize_url u = some r ∧ pyLastChar r = some '/' ∧
      canonicalize_url r = some r :=
  canonicalize_url_spec u hu

/-- C7 witness: the amended claim at the concrete URL `"a"`. -/
theorem C7_witness :
    ∃ r, canonicalize_url "a" = some r ∧ pyLastChar r = some '/' ∧
      canonicalize_url r = some r :=
  C7_canonicalize_idempotent_trailing_slash "a" (by decide)

/-- C10: `canonicalize_url` is total exactly on non-empty strings — it
returns `none` (Python IndexError) on `""` and succeeds on every non-empty
string — and `get_secure_repository` reaches the empty-string case for
every project URL that still has a (non-empty) single segment and no slash
after stripping trailing slashes, failing with the out-of-bounds access
instead of the documented structural `ValueError`. -/
theorem C10_canonicalize_partial_one_segment_crash :
    canonicalize_url "" = none ∧
    (∀ u : String, u ≠ "" → ∃ r, canonicalize_url u = some r) ∧
    (∀ (repos : List String) (url : String),
      pyRstrip '/' url ≠ "" →
      (∀ c ∈ (pyRstrip '/' url).data, c ≠ '/') →
      get_secure_repository repos url =
        .error (.indexError "string index out of range")) := by
  refine ⟨rfl, ?_, ?_⟩
  · intro u hu
    obtain ⟨r, hr, -, -⟩ := canonicalize_url_spec u hu
    exact ⟨r, hr⟩
  · exact get_secure_repository_crash

/-- C10 witness: totality at `"x"`, and the crash on the one-segment
project URL `"foo"`. -/
theorem C10_witness :
    (∃ r, canonicalize_url "x" = some r) ∧
    get_secure_repository [] "foo" =
      .error (.indexError "string index out of range") :=
  ⟨C10_canonicalize_partial_one_segment_crash.2.1 "x" (by decide),
    C10_canonicalize_partial_one_segment_crash.2.2 [] "foo" (by decide) (by decide)⟩

/-- C3: the claim says the three pre-filename segments must contain 64
*hexadecimal* characters and that any violating link raises a structural
error; but the code checks only the length.  This link's three segments
join to 64 characters, none of which is a hexadecimal digit, yet
`split_distribution_url` succeeds instead of raising. -/
theorem C3_counterexample :
    split_distribution_url nonHexLink =
      .ok ("https://files.pythonhosted.org/packages",
        "zzzzzzzzzzzzzzzzzzzzzzzzzzzzzzzzzzzzzzzzzzzzzzzzzzzzzzzzzzzz/wz/yz/file.tar.gz") ∧
    (concatAll (sliceLast4DropLast (pySplit '/' nonHexLink.path))).length = 64 ∧
    (concatAll (sliceLast4DropLast (pySplit '/' nonHexLink.path))).data.all
      (fun c => !isHexDigitChar c) = true :=
  ⟨rfl, rfl, by decide⟩

/-- C3 (amended): `split_distribution_url` takes the last four
slash-separated path segments and requires the first three to join to
exactly 64 characters (length only — hexadecimality is not checked);
it then returns the base URL without the hash path together with
`"h1/h2/h3/filename"`, and raises the structural `ValueError` exactly
when the 64-character length test fails. -/
theorem C3_split_checks_length_only (link : Link) (pre : List String)
    (h1 h2 h3 fn : String)
    (hsp : pySplit '/' link.path = pre ++ [h1, h2, h3, fn]) :
    ((h1 ++ h2 ++ h3).length = 64 →
      split_distribution_url link =
        .ok (urlunsplit3 link.scheme link.netloc (joinSlash pre),
          joinSlash [h1, h2, h3, fn])) ∧
    ((h1 ++ h2 ++ h3).length ≠ 64 →
      split_distribution_url link =
        .error (.valueError "Expected structure not found in link")) := by
  have hlen4 : (pre ++ [h1, h2, h3, fn]).length - 4 = pre.length := by
    simp
  have hdrop : sliceLast4 (pre ++ [h1, h2, h3, fn]) = [h1, h2, h3, fn] := by
    unfold sliceLast4
    rw [hlen4, List.drop_left]
  have hdl : sliceLast4DropLast (pre ++ [h1, h2, h3, fn]) = [h1, h2, h3] := by
    unfold sliceLast4DropLast
    rw [hlen4, List.drop_left]
    rfl
  have htake : sliceDropLast4 (pre ++ [h1, h2, h3, fn]) = pre := by
    unfold sliceDropLast4
    rw [hlen4, List.take_left]
  have hblen : (concatAll [h1, h2, h3]).length = (h1 ++ h2 ++ h3).length := by
    simp [concatAll]
    omega
  constructor
  · intro h64
    simp only [split_distribution_url, hsp, hdl, htake, hdrop]
    rw [if_neg (by rw [hblen, h64]; exact fun h => h rfl)]
  · intro h64
    simp only [split_distribution_url, hsp, hdl]
    rw [if_pos (by rw [hblen]; exact h64)]

/-- C3 witness: the amended claim applied to the concrete well-formed
distribution link `goodLink` and, for the failing branch, to `badLink`
via a distinct decomposition is not needed — the 64-length branch is
exercised here. -/
theorem C3_witness :
    split_distribution_url goodLink =
      .ok (urlunsplit3 "https" "files.pythonhosted.org" (joinSlash ["", "packages"]),
        joinSlash ["8f", "1f",
          "012345678901234567890123456789012345678901234567890123456789",
          "Django-1.1.3.tar.gz"]) :=
  (C3_split_checks_length_only goodLink ["", "packages"] "8f" "1f"
    "012345678901234567890123456789012345678901234567890123456789"
    "Django-1.1.3.tar.gz" rfl).1 (by decide)

/-- C1: a distribution link whose target name the Trust Engine cannot
resolve (`get_targetinfo` returns absent) makes `download_distribution`
return `None` — an absent result, not a raised error — contradicting both
the claim and the function's declared `-> str` type. -/
theorem C1_unresolved_distribution_returns_absent :
    (download_distribution behUnresolved exampleBaseUrl goodLink "/tmp/loc" "on"
      (initRepoState exampleBaseUrl)).result = .ok none :=
  rfl

/-- C2 counterexample: a transport failure (`DownloadError`) during target
resolution inside `download_distribution` propagates as the raw
`DownloadError` cause itself — it is not translated into the unified
connectivity error type (`NetworkConnectionError`), nor into any wrapper:
the claim fails at this input. -/
theorem C2_counterexample :
    (download_distribution behConnFail exampleBaseUrl goodLink "/tmp/loc" "on"
      (initRepoState exampleBaseUrl)).result =
        .error (.downloadError "connection refused") ∧
    (∀ m, (PipErr.downloadError "connection refused") ≠ .networkConnectionError m) :=
  ⟨rfl, fun _ h => PipErr.noConfusion h⟩

/-- C9: on a successful distribution download requested with progress mode
`"on"`, the verified artifact download (`downloadTargetCall`) runs with the
fetcher progress mode still `"off"` from the metadata phase — the code
never re-enables the caller-requested mode (the call that did is commented
out and the `progress_bar` parameter is unused), contradicting the claim
and the parameter's purpose. -/
theorem C9_artifact_download_runs_with_progress_off :
    (download_distribution behOk exampleBaseUrl goodLink "/tmp/loc" "on"
      (initRepoState exampleBaseUrl)).result =
        .ok (some "/tmp/loc/Django-1.1.3.tar.gz") ∧
    (download_distribution behOk exampleBaseUrl goodLink "/tmp/loc" "on"
      (initRepoState exampleBaseUrl)).events =
      [Event.refreshCall, Event.getTargetinfoCall goodTargetName,
        Event.downloadTargetCall goodTargetName "off"] ∧
    ("off" : String) ≠ "on" :=
  ⟨rfl, rfl, by decide⟩

/-- C8 counterexample: on a not-yet-refreshed repository with a
structurally invalid link, `download_distribution` performs the metadata
refresh — a network call — before raising the structural `ValueError`, so
the error is not raised before any network call. -/
theorem C8_counterexample :
    (download_distribution behOk exampleBaseUrl badLink "/tmp/loc" "on"
      (initRepoState exampleBaseUrl)).result =
        .error (.valueError "Expected structure not found in link") ∧
    (download_distribution behOk exampleBaseUrl badLink "/tmp/loc" "on"
      (initRepoState exampleBaseUrl)).events = [Event.refreshCall] ∧
    isNetworkEvent Event.refreshCall = true :=
  ⟨rfl, rfl, rfl⟩

/-- C2 (amended): a transport/mirror (`DownloadError`) failure during
target resolution or during the verified download inside
`download_distribution` propagates unchanged as the underlying
`DownloadError` itself; no translation into a unified connectivity error
type takes place (the `except` clauses re-wrap only metadata-verification
errors). -/
theorem C2_transport_error_propagates_raw (b : UpdaterBehavior)
    (baseUrl : String) (link : Link) (loc pb : String) (s : RepoState)
    (base_url target_name m : String)
    (hrefresh : b.refreshResult = .ok ())
    (hsplit : split_distribution_url link = .ok (base_url, target_name)) :
    (b.getTargetinfoResult target_name = .error (.downloadError m) →
      (download_distribution b baseUrl link loc pb s).result =
        .error (.downloadError m)) ∧
    (∀ t, b.getTargetinfoResult target_name = .ok (some t) →
      b.downloadTargetResult t (pyPathJoin loc ((pySplit '/' target_name).getLastD ""))
          (baseUrl ++ "/packages/") = .error (.downloadError m) →
      (download_distribution b baseUrl link loc pb s).result =
        .error (.downloadError m)) := by
  constructor
  · intro hget
    cases hsr : s.refreshed <;>
      simp [download_distribution, ensure_fresh_metadata, hsr, hrefresh, hsplit,
        hget, dist_except_handler, isUnsignedMetadataError, isRepositoryError]
  · intro t hget hdl
    rw [List.getLastD_eq_getLast?] at hdl
    cases hsr : s.refreshed <;>
      simp [download_distribution, ensure_fresh_metadata, hsr, hrefresh, hsplit,
        hget, hdl, dist_except_handler, isUnsignedMetadataError, isRepositoryError]

/-- C2 witness: the amended claim at a concrete behavior whose target
resolution fails with a transport error, on `goodLink`. -/
theorem C2_witness :
    (download_distribution behConnFail exampleBaseUrl goodLink "/dest" "on"
      (initRepoState exampleBaseUrl)).result =
      .error (.downloadError "connection refused") :=
  (C2_transport_error_propagates_raw behConnFail exampleBaseUrl goodLink "/dest" "on"
    (initRepoState exampleBaseUrl)
    "https://files.pythonhosted.org/packages" goodTargetName "connection refused"
    rfl rfl).1 rfl

/-- C4: `download_index` returns an absent result (`None`), never an
exception, both when the Trust Engine cannot resolve the derived index
target and when a transport (`DownloadError`) failure occurs during
resolution or during the verified download; in the transport-failure
cases a warning is logged. -/
theorem C4_download_index_absorbs_failures (b : UpdaterBehavior)
    (baseUrl tmpDir project : String) (s : RepoState)
    (hrefresh : b.refreshResult = .ok ()) :
    (b.getTargetinfoResult (project ++ "/" ++ project ++ ".html") = .ok none →
      (download_index b baseUrl tmpDir project s).result = .ok none) ∧
    (∀ m, b.getTargetinfoResult (project ++ "/" ++ project ++ ".html") =
        .error (.downloadError m) →
      (download_index b baseUrl tmpDir project s).result = .ok none ∧
      Event.warnLog ∈ (download_index b baseUrl tmpDir project s).events) ∧
    (∀ t m, b.getTargetinfoResult (project ++ "/" ++ project ++ ".html") =
        .ok (some t) →
      b.downloadTargetResult t (pyPathJoin tmpDir project) (baseUrl ++ "/simple/") =
        .error (.downloadError m) →
      (download_index b baseUrl tmpDir project s).result = .ok none ∧
      Event.warnLog ∈ (download_index b baseUrl tmpDir project s).events) := by
  refine ⟨?_, ?_, ?_⟩
  · intro hget
    cases hsr : s.refreshed <;>
      simp [download_index, ensure_fresh_metadata, hsr, hrefresh, hget,
        index_except_handler, isRepositoryError, isDownloadError]
  · intro m hget
    cases hsr : s.refreshed <;>
      simp [download_index, ensure_fresh_metadata, hsr, hrefresh, hget,
        index_except_handler, isRepositoryError, isDownloadError]
  · intro t m hget hdl
    cases hsr : s.refreshed <;>
      simp [download_index, ensure_fresh_metadata, hsr, hrefresh, hget, hdl,
        index_except_handler, isRepositoryError, isDownloadError]

/-- C4 witness: at a concrete behavior, an unresolved index target yields
absent, and a transport failure during resolution yields absent with a
warning logged. -/
theorem C4_witness :
    (download_index behUnresolved exampleBaseUrl "/tmp/t" "foo"
      (initRepoState exampleBaseUrl)).result = .ok none ∧
    ((download_index behConnFail exampleBaseUrl "/tmp/t" "foo"
      (initRepoState exampleBaseUrl)).result = .ok none ∧
      Event.warnLog ∈ (download_index behConnFail exampleBaseUrl "/tmp/t" "foo"
        (initRepoState exampleBaseUrl)).events) :=
  ⟨(C4_download_index_absorbs_failures behUnresolved exampleBaseUrl "/tmp/t" "foo"
      (initRepoState exampleBaseUrl) rfl).1 rfl,
    (C4_download_index_absorbs_failures behConnFail exampleBaseUrl "/tmp/t" "foo"
      (initRepoState exampleBaseUrl) rfl).2.1 "connection refused" rfl⟩

/-- C8 (amended): for a structurally invalid distribution link the
structural `ValueError` is raised before any per-link network operation —
no target resolution or target download happens — but after
`ensure_fresh_metadata`, which on a not-yet-refreshed repository performs
the one metadata refresh over the network first; when metadata is already
fresh no network call at all precedes the error. -/
theorem C8_structural_error_before_target_network (b : UpdaterBehavior)
    (baseUrl : String) (link : Link) (loc pb : String) (s : RepoState)
    (msg : String)
    (hsplit : split_distribution_url link = .error (.valueError msg)) :
    (s.refreshed = true →
      (download_distribution b baseUrl link loc pb s).result =
        .error (.valueError msg) ∧
      (download_distribution b baseUrl link loc pb s).events = []) ∧
    (b.refreshResult = .ok () →
      (download_distribution b baseUrl link loc pb s).result =
        .error (.valueError msg) ∧
      ∀ ev ∈ (download_distribution b baseUrl link loc pb s).events,
        ev = Event.refreshCall) := by
  constructor
  · intro hsr
    constructor <;>
      simp [download_distribution, ensure_fresh_metadata, hsr, hsplit,
        dist_except_handler, isUnsignedMetadataError, isRepositoryError]
  · intro hrefresh
    cases hsr : s.refreshed <;>
      constructor <;>
        simp [download_distribution, ensure_fresh_metadata, hsr, hrefresh, hsplit,
          dist_except_handler, isUnsignedMetadataError, isRepositoryError]

/-- C8 witness: the amended claim at a concrete invalid link, on both an
already-refreshed repository (no events at all) and a fresh one. -/
theorem C8_witness :
    ((download_distribution behOk exampleBaseUrl badLink "/tmp/loc" "on"
        { initRepoState exampleBaseUrl with refreshed := true }).result =
      .error (.valueError "Expected structure not found in link") ∧
      (download_distribution behOk exampleBaseUrl badLink "/tmp/loc" "on"
        { initRepoState exampleBaseUrl with refreshed := true }).events = []) ∧
    ∀ ev ∈ (download_distribution behOk exampleBaseUrl badLink "/tmp/loc" "on"
        (initRepoState exampleBaseUrl)).events, ev = Event.refreshCall :=
  ⟨(C8_structural_error_before_target_network behOk exampleBaseUrl badLink
      "/tmp/loc" "on" { initRepoState exampleBaseUrl with refreshed := true }
      "Expected structure not found in link" rfl).1 rfl,
    ((C8_structural_error_before_target_network behOk exampleBaseUrl badLink
      "/tmp/loc" "on" (initRepoState exampleBaseUrl)
      "Expected structure not found in link" rfl).2 rfl).2⟩

/-- C5 counterexample: the allow-listed index URL appears in the
constructor's list, its local trust metadata is missing, and Manager
construction raises `NameError` — neither a repository map containing the
index nor a `ConfigurationError` — because the `except` clause that was
meant to catch this case names the undefined `MissingLocalRepositoryError`. -/
theorem C5_counterexample :
    initialize_repositories (fun _ => ConstructResult.missingLocal)
      ["http://localhost:9001/simple/"] =
      .error (.nameError "name MissingLocalRepositoryError is not defined") ∧
    (∀ msg, (PipErr.nameError "name MissingLocalRepositoryError is not defined") ≠
      .configurationError msg) :=
  ⟨rfl, fun _ h => PipErr.noConfusion h⟩

/-- C5 (amended): for index URLs that canonicalize (non-empty), Manager
construction never finishes with any input index silently missing from the
repository map: either every construction succeeds and the returned map
contains the canonical form of every input URL (in particular every
allow-listed one), or some construction fails and the whole construction
aborts — but with `NameError` (the except clause names the undefined
`MissingLocalRepositoryError`), never with `ConfigurationError` and never
by skipping the index. -/
theorem C5_failed_construction_aborts_with_name_error
    (outcome : String → ConstructResult) (urls : List String)
    (hne : ∀ u ∈ urls, u ≠ "") :
    (∃ msg, initialize_repositories outcome urls = .error (.nameError msg)) ∨
    (∃ m, initialize_repositories outcome urls = .ok m ∧
      ∀ u ∈ urls, ∀ cu, canonicalize_url u = some cu → cu ∈ m) := by
  induction urls with
  | nil => exact .inr ⟨[], rfl, by simp⟩
  | cons u rest ih =>
    obtain ⟨cu, hcu, -, -⟩ := canonicalize_url_spec u (hne u (by simp))
    have hrest := ih (fun v hv => hne v (by simp [hv]))
    cases hout : outcome cu with
    | success =>
      cases hrest with
      | inl h =>
        obtain ⟨msg, hmsg⟩ := h
        exact .inl ⟨msg, by simp [initialize_repositories, hcu, hout, hmsg]⟩
      | inr h =>
        obtain ⟨m, hm, hprop⟩ := h
        refine .inr ⟨cu :: m, by simp [initialize_repositories, hcu, hout, hm], ?_⟩
        intro v hv cv hcv
        rcases List.mem_cons.mp hv with rfl | hv2
        · rw [hcu] at hcv
          injection hcv with h
          subst h
          exact List.mem_cons_self _ _
        · exact List.mem_cons_of_mem _ (hprop v hv2 cv hcv)
    | missingLocal =>
      exact .inl ⟨"name MissingLocalRepositoryError is not defined",
        by simp [initialize_repositories, hcu, hout]⟩
    | repoError =>
      exact .inl ⟨"name MissingLocalRepositoryError is not defined",
        by simp [initialize_repositories, hcu, hout]⟩

/-- C5 witness: the amended claim at the allow-listed index URL, with a
successful construction outcome (the map must contain it) and with a
missing-local-metadata outcome (construction must abort with an error). -/
theorem C5_witness :
    ((∃ msg, initialize_repositories (fun _ => ConstructResult.success)
        ["http://localhost:9001/simple/"] = .error (.nameError msg)) ∨
     (∃ m, initialize_repositories (fun _ => ConstructResult.success)
        ["http://localhost:9001/simple/"] = .ok m ∧
        ∀ u ∈ ["http://localhost:9001/simple/"], ∀ cu,
          canonicalize_url u = some cu → cu ∈ m)) ∧
    ((∃ msg, initialize_repositories (fun _ => ConstructResult.missingLocal)
        ["http://localhost:9001/simple/"] = .error (.nameError msg)) ∨
     (∃ m, initialize_repositories (fun _ => ConstructResult.missingLocal)
        ["http://localhost:9001/simple/"] = .ok m ∧
        ∀ u ∈ ["http://localhost:9001/simple/"], ∀ cu,
          canonicalize_url u = some cu → cu ∈ m)) :=
  ⟨C5_failed_construction_aborts_with_name_error (fun _ => ConstructResult.success)
      ["http://localhost:9001/simple/"] (by decide),
   C5_failed_construction_aborts_with_name_error (fun _ => ConstructResult.missingLocal)
      ["http://localhost:9001/simple/"] (by decide)⟩

/-- Helper: the index `except` handler never changes the repository state. -/
@[simp]
theorem index_except_handler_state (e : PipErr) (s : RepoState) (ev : List Event) :
    (index_except_handler e s ev).state = s := by
  unfold index_except_handler
  split_ifs <;> rfl

/-- Helper: the distribution `except` handler never changes the repository
state. -/
@[simp]
theorem dist_except_handler_state (e : PipErr) (s : RepoState) (ev : List Event) :
    (dist_except_handler e s ev).state = s := by
  unfold dist_except_handler
  split_ifs <;> rfl

/-- Helper: registering a distribution mirror leaves the refresh flag
untouched. -/
@[simp]
theorem ensure_distribution_mirror_config_refreshed (u : String) (s : RepoState) :
    (ensure_distribution_mirror_config u s).refreshed = s.refreshed := by
  unfold ensure_distribution_mirror_config
  split_ifs <;> rfl

/-- Helper: registering a distribution mirror leaves the refresh counter
untouched. -/
@[simp]
theorem ensure_distribution_mirror_config_refreshCount (u : String) (s : RepoState) :
    (ensure_distribution_mirror_config u s).refreshCount = s.refreshCount := by
  unfold ensure_distribution_mirror_config
  split_ifs <;> rfl

/-- Helper: when refresh succeeds, every repository operation leaves the
repository refreshed, incrementing the underlying refresh counter exactly
when the repository was not yet refreshed. -/
theorem applyOp_refreshed_count (b : UpdaterBehavior) (baseUrl tmpDir : String)
    (op : RepoOp) (s : RepoState) (hb : b.refreshResult = .ok ()) :
    (applyOp b baseUrl tmpDir op s).refreshed = true ∧
    (applyOp b baseUrl tmpDir op s).refreshCount =
      (if s.refreshed then s.refreshCount else s.refreshCount + 1) := by
  have hens : ∀ s' : RepoState,
      (ensure_fresh_metadata b s').state.refreshed = true ∧
      (ensure_fresh_metadata b s').state.refreshCount =
        (if s'.refreshed then s'.refreshCount else s'.refreshCount + 1) := by
    intro s'
    cases hsr : s'.refreshed <;> simp [ensure_fresh_metadata, hsr, hb]
  cases op with
  | ensureOp =>
    simpa using hens s
  | indexOp p =>
    obtain ⟨h1, h2⟩ := hens { s with progressBar := "off" }
    simp only [applyOp, download_index]
    repeat' split
    all_goals simp_all
  | distOp l loc pb =>
    obtain ⟨h1, h2⟩ := hens { s with progressBar := "off" }
    simp only [applyOp, download_distribution]
    repeat' split
    all_goals simp_all

/-- Helper: once a repository is refreshed with counter 1, any further
operation sequence keeps it refreshed with counter 1 (refresh succeeding). -/
theorem runOps_keeps_one_refresh (b : UpdaterBehavior) (baseUrl tmpDir : String)
    (hb : b.refreshResult = .ok ()) :
    ∀ (ops : List RepoOp) (s : RepoState), s.refreshed = true → s.refreshCount = 1 →
      (runOps b baseUrl tmpDir ops s).refreshed = true ∧
      (runOps b baseUrl tmpDir ops s).refreshCount = 1 := by
  intro ops
  induction ops with
  | nil =>
    intro s h1 h2
    exact ⟨h1, h2⟩
  | cons op rest ih =>
    intro s h1 h2
    have h := applyOp_refreshed_count b baseUrl tmpDir op s hb
    rw [h1, if_pos rfl, h2] at h
    simpa [runOps, List.foldl_cons] using ih (applyOp b baseUrl tmpDir op s) h.1 h.2

/-- C6: over the lifetime of one repository (starting from its
just-constructed state), any non-empty sequence of operations containing
at least one explicit `ensure_fresh_metadata` call — interleaved
arbitrarily with `download_index` and `download_distribution` calls, each
of which also invokes the guard — triggers exactly one underlying Trust
Engine refresh, provided refresh succeeds. -/
theorem C6_exactly_one_refresh (b : UpdaterBehavior) (baseUrl tmpDir : String)
    (ops : List RepoOp) (hb : b.refreshResult = .ok ())
    (hops : RepoOp.ensureOp ∈ ops) :
    (runOps b baseUrl tmpDir ops (initRepoState baseUrl)).refreshCount = 1 := by
  cases ops with
  | nil => cases hops
  | cons op rest =>
    have h := applyOp_refreshed_count b baseUrl tmpDir op (initRepoState baseUrl) hb
    simp only [initRepoState, if_neg Bool.false_ne_true] at h
    have h2 := runOps_keeps_one_refresh b baseUrl tmpDir hb rest
      (applyOp b baseUrl tmpDir op (initRepoState baseUrl)) h.1 h.2
    simpa [runOps, List.foldl_cons] using h2.2

/-- C6 witness: one explicit guard call interleaved with an index download
and a distribution download triggers exactly one refresh. -/
theorem C6_witness :
    (runOps behOk exampleBaseUrl "/tmp/t"
      [RepoOp.ensureOp, RepoOp.indexOp "a",
        RepoOp.distOp goodLink "/l" "on", RepoOp.ensureOp]
      (initRepoState exampleBaseUrl)).refreshCount = 1 :=
  C6_exactly_one_refresh behOk exampleBaseUrl "/tmp/t"
    [RepoOp.ensureOp, RepoOp.indexOp "a",
      RepoOp.distOp goodLink "/l" "on", RepoOp.ensureOp]
    rfl (List.Mem.head _)
